import Mathlib

/-!
# Verification of the Medical Report Scanner backend (`backend/server.py`)

A shallow embedding of the request-handling logic of the FastAPI backend.
Python strings are modelled as `List Char` (Python strings are sequences of
code points, and `str.strip`, slicing, `startswith`/`endswith` act on code
points, exactly as the `List Char` operations below do).  Timestamps are
modelled as `Nat` (the code only compares them; MongoDB sorts the ISO-8601
serialisation, whose order agrees with chronological order).  The MongoDB
collection `db.reports` is modelled as a list of records in insertion order:
`insert_one` appends, `find_one` returns the first match, `delete_one`
removes the first match, and `find().sort("saved_at", -1).to_list(100)`
returns the collection sorted by `saved_at` descending truncated to 100.
JSON parsing (`json.loads`) is an external library boundary and is kept
abstract as a function `List Char → Option Jobj`; JSON values that have
already been parsed are represented by the inductive type `Jval`.
-/

namespace MedicalApp

/-- Python `str.strip()` on a list of code points: drop whitespace from both
ends. -/
def pyStrip (s : List Char) : List Char :=
  (s.dropWhile Char.isWhitespace).rdropWhile Char.isWhitespace

/-- Python `s.startswith(pre)`. -/
def pyStartswith (s pre : List Char) : Bool :=
  pre.isPrefixOf s

/-- Python `s.endswith(suf)`. -/
def pyEndswith (s suf : List Char) : Bool :=
  suf.isSuffixOf s

/-- Python `s[:-n]` for `n ≤ len(s)` (the code only uses it in that case):
drop the last `n` code points. -/
def pyDropRight (s : List Char) (n : Nat) : List Char :=
  s.take (s.length - n)

/-- Line 157–158: `if cleaned_response.startswith("```json"):
cleaned_response = cleaned_response[7:]`. -/
def stripJsonMarker (c : List Char) : List Char :=
  if pyStartswith c ("```json".toList) then c.drop 7 else c

/-- Line 159–160: `if cleaned_response.startswith("```"):
cleaned_response = cleaned_response[3:]`.  Note this is a second,
independent `if` — it also fires on what remains after the `"```json"`
strip. -/
def stripTickPrefix (c : List Char) : List Char :=
  if pyStartswith c ("```".toList) then c.drop 3 else c

/-- Line 161–162: `if cleaned_response.endswith("```"):
cleaned_response = cleaned_response[:-3]`. -/
def stripTickSuffix (c : List Char) : List Char :=
  if pyEndswith c ("```".toList) then pyDropRight c 3 else c

/-- `server.py` lines 155–163: the fence-stripping normalisation applied to
the raw LLM completion before `json.loads`: strip, the three conditional
marker strips in order, strip again. -/
def cleanResponse (response : List Char) : List Char :=
  pyStrip (stripTickSuffix (stripTickPrefix (stripJsonMarker
    (pyStrip response))))

/-- Modelled from the spec: the normaliser the specification describes, with
*exactly one* strip attempt on the leading side ("a single leading
fenced-code marker (optionally language-tagged)") and one on the trailing
side.  Used only to compare the specified behaviour with `cleanResponse`. -/
def cleanResponseSpecSingle (response : List Char) : List Char :=
  let c0 := pyStrip response
  let c1 := if pyStartswith c0 ("```json".toList) then c0.drop 7
            else if pyStartswith c0 ("```".toList) then c0.drop 3
            else c0
  pyStrip (stripTickSuffix c1)

/-- Wrapping a text in a fenced code block with a leading language-tagged
marker and a trailing marker, as in the spec's test property. -/
def wrapJsonFence (t : List Char) : List Char :=
  "```json".toList ++ t ++ "```".toList

example : cleanResponse ("```json 5 ```".toList) = "5".toList := by decide
example : cleanResponse ("``` 5 ```".toList) = "5".toList := by decide
example : cleanResponse ("  5  ".toList) = "5".toList := by decide
example : cleanResponse ("```json```5```".toList) = "5".toList := by decide
example : cleanResponseSpecSingle ("```json```5```".toList) = "```5".toList := by
  decide

/-! ## JSON values and the parsed-response object -/

/-- A parsed JSON value (the result of `json.loads`).  Numbers are irrelevant
to the properties verified here beyond their identity, so they are modelled
as integers. -/
inductive Jval : Type where
  | null : Jval
  | bool : Bool → Jval
  | num : Int → Jval
  | str : String → Jval
  | arr : List Jval → Jval
  | obj : List (String × Jval) → Jval

/-- A parsed JSON object: Python `dict` with string keys, in insertion
order. -/
abbrev Jobj := List (String × Jval)

/-- Python `d.get(k)` / `d.get(k, default)` resolved to the stored value:
`none` when the key is absent. -/
def dictGet (o : Jobj) (k : String) : Option Jval :=
  (o.find? (fun kv => kv.1 == k)).map (·.2)

/-! ## Data model (`server.py` lines 62–94) -/

/-- `HealthParameter` (lines 66–73). -/
structure HealthParameter where
  name : String
  value : String
  unit : String
  normal_range : String
  status : String
  explanation : String
  hindi_explanation : Option String
deriving DecidableEq

/-- `AnalyzedReport` (lines 75–86).  `created_at` is a timestamp (`Nat` in
the model); `image_base64` keeps the `List Char` string model because the
truncation behaviour is character-level. -/
structure AnalyzedReport where
  id : String
  report_type : String
  title : String
  summary : String
  hindi_summary : Option String
  parameters : List HealthParameter
  health_tips : List String
  hindi_health_tips : Option (List String)
  overall_status : String
  created_at : Nat
  image_base64 : Option (List Char)
deriving DecidableEq

/-- `SavedReport` (lines 88–91). -/
structure SavedReport where
  id : String
  report_data : AnalyzedReport
  saved_at : Nat
deriving DecidableEq

/-- An HTTP error response (FastAPI `HTTPException`): status code and
`detail` string. -/
structure HTTPError where
  status : Nat
  detail : String
deriving DecidableEq

/-- The mutable module state of `server.py`: `USE_MONGODB` and `db` (lines
26–44), the MongoDB collection `db.reports` (modelled as a list in insertion
order), and `MEMORY_REPORTS` (line 27). -/
structure ServerState where
  useMongodb : Bool
  dbPresent : Bool
  mongoReports : List SavedReport
  memoryReports : List SavedReport
deriving DecidableEq

/-! ## Response normalisation: building an `AnalyzedReport` from the parsed
LLM object (`analyze_report`, lines 217–241).

Pydantic validates each field against its declared type; a present value of
the wrong type raises a `ValidationError` (caught by the endpoint's broad
`except` and turned into a 500).  The builders below therefore return
`Option`, with `none` for the validation-failure path.  Per Python
`dict.get(key, default)`, the default is used only when the key is absent. -/

/-- A JSON value validated against a pydantic `str` field. -/
def asStr : Jval → Option String
  | .str s => some s
  | _ => none

/-- A JSON value validated against a pydantic `List[str]` field. -/
def asStrList : Jval → Option (List String)
  | .arr xs => xs.mapM asStr
  | _ => none

/-- `o.get(k, dflt)` fed to a pydantic `str` field. -/
def fieldStr (o : Jobj) (k : String) (dflt : String) : Option String :=
  match dictGet o k with
  | none => some dflt
  | some v => asStr v

/-- `o.get(k)` fed to a pydantic `Optional[str]` field: an absent key and an
explicit `null` both become `None`. -/
def fieldOptStr (o : Jobj) (k : String) : Option (Option String) :=
  match dictGet o k with
  | none => some none
  | some .null => some none
  | some (.str s) => some (some s)
  | some _ => none

/-- `o.get(k, [])` fed to a pydantic `List[str]` field. -/
def fieldStrList (o : Jobj) (k : String) : Option (List String) :=
  match dictGet o k with
  | none => some []
  | some v => asStrList v

/-- `o.get(k)` fed to a pydantic `Optional[List[str]]` field. -/
def fieldOptStrList (o : Jobj) (k : String) : Option (Option (List String)) :=
  match dictGet o k with
  | none => some none
  | some .null => some none
  | some v => (asStrList v).map some

/-- Lines 219–227: one element of the parameters list.
`HealthParameter(name=p.get("name", "Unknown"), value=p.get("value", "N/A"),
unit=p.get("unit", ""), normal_range=p.get("normal_range", "N/A"),
status=p.get("status", "normal"), explanation=p.get("explanation", ""),
hindi_explanation=p.get("hindi_explanation"))`. -/
def buildParameter (p : Jobj) : Option HealthParameter :=
  match fieldStr p "name" "Unknown", fieldStr p "value" "N/A",
        fieldStr p "unit" "", fieldStr p "normal_range" "N/A",
        fieldStr p "status" "normal", fieldStr p "explanation" "",
        fieldOptStr p "hindi_explanation" with
  | some name, some value, some unit, some normal_range, some status,
    some explanation, some hindi_explanation =>
      some ⟨name, value, unit, normal_range, status, explanation,
            hindi_explanation⟩
  | _, _, _, _, _, _, _ => none

/-- Lines 218–229: `for p in analysis.get("parameters", [])`.  An absent key
yields the empty list; a present non-list value, or a list element that is
not an object, raises at iteration/attribute-access time (`none` here). -/
def buildParameters (analysis : Jobj) : Option (List HealthParameter) :=
  match dictGet analysis "parameters" with
  | none => some []
  | some (.arr xs) => xs.mapM (fun v =>
      match v with
      | .obj p => buildParameter p
      | _ => none)
  | some _ => none

/-- Lines 240–241: `image_base64=request.image_base64[:100] + "..."` — the
truncated reference copy stored on the returned report. -/
def truncImage (image_base64 : List Char) : List Char :=
  image_base64.take 100 ++ "...".toList

/-- Lines 218–241: the full construction of the `AnalyzedReport` from the
parsed `analysis` object.  `newId` stands for the generated `uuid4` and
`now` for `datetime.utcnow()`. -/
def buildAnalyzedReport (analysis : Jobj) (image_base64 : List Char)
    (newId : String) (now : Nat) : Option AnalyzedReport :=
  match buildParameters analysis,
        fieldStr analysis "report_type" "blood_test",
        fieldStr analysis "title" "Medical Report",
        fieldStr analysis "summary" "Report analyzed successfully",
        fieldOptStr analysis "hindi_summary",
        fieldStrList analysis "health_tips",
        fieldOptStrList analysis "hindi_health_tips",
        fieldStr analysis "overall_status" "moderate" with
  | some parameters, some report_type, some title, some summary,
    some hindi_summary, some health_tips, some hindi_health_tips,
    some overall_status =>
      some ⟨newId, report_type, title, summary, hindi_summary, parameters,
            health_tips, hindi_health_tips, overall_status, now,
            some (truncImage image_base64)⟩
  | _, _, _, _, _, _, _, _ => none

/-- The top-level keys `analyze_report` reads from the parsed object. -/
def expectedTopKeys : List String :=
  ["parameters", "report_type", "title", "summary", "hindi_summary",
   "health_tips", "hindi_health_tips", "overall_status"]

/-- The keys read from each element of the parameters list. -/
def expectedParamKeys : List String :=
  ["name", "value", "unit", "normal_range", "status", "explanation",
   "hindi_explanation"]

/-! ## The analyze pipeline (`analyze_medical_report`, lines 97–174, and the
`/analyze-report` endpoint, lines 206–249).

`json.loads` is an external boundary, abstracted as
`parse : List Char → Option Jobj` (the success case relevant here is a JSON
object).  The LLM round trip is abstracted by its outcome: `llmErr = some m`
when `chat.send_message` raises with message `m`, otherwise the raw
completion text `llmResponse`.  The second component of each result counts
outbound LLM calls. -/

/-- `analyze_medical_report` (lines 97–174): key check, one LLM call, fence
stripping, `json.loads`, with `JSONDecodeError ↦ 500 "Failed to parse AI
response"` and any other in-`try` failure `e ↦ 500 "Error analyzing report:
" + str(e)`. -/
def analyze_medical_report (parse : List Char → Option Jobj)
    (apiKeyPresent : Bool) (llmErr : Option String) (llmResponse : List Char) :
    Except HTTPError Jobj × Nat :=
  if !apiKeyPresent then
    (.error ⟨500, "LLM API key not configured"⟩, 0)
  else
    match llmErr with
    | some m => (.error ⟨500, "Error analyzing report: " ++ m⟩, 1)
    | none =>
      match parse (cleanResponse llmResponse) with
      | none => (.error ⟨500, "Failed to parse AI response"⟩, 1)
      | some analysis => (.ok analysis, 1)

/-- The `/analyze-report` endpoint (lines 206–249).  Returns the HTTP
outcome, the server state after the request (the endpoint never writes to
either collection), and the number of outbound LLM calls. -/
def analyze_report (parse : List Char → Option Jobj) (apiKeyPresent : Bool)
    (llmErr : Option String) (llmResponse : List Char)
    (image_base64 : List Char) (newId : String) (now : Nat)
    (st : ServerState) :
    Except HTTPError AnalyzedReport × ServerState × Nat :=
  if image_base64.isEmpty then
    (.error ⟨400, "No image provided"⟩, st, 0)
  else
    match analyze_medical_report parse apiKeyPresent llmErr llmResponse with
    | (.error e, n) => (.error e, st, n)
    | (.ok analysis, n) =>
      match buildAnalyzedReport analysis image_base64 newId now with
      | some report => (.ok report, st, n)
      | none => (.error ⟨500, "validation error"⟩, st, n)

/-! ## Persistence endpoints (`server.py` lines 251–348) -/

/-- The descending-`saved_at` order used by both list paths ("most recent
first"). -/
def savedDesc (a b : SavedReport) : Prop :=
  b.saved_at ≤ a.saved_at

instance : DecidableRel savedDesc := fun a b =>
  inferInstanceAs (Decidable (b.saved_at ≤ a.saved_at))

instance : IsTotal SavedReport savedDesc :=
  ⟨fun a b => Nat.le_total b.saved_at a.saved_at⟩

instance : IsTrans SavedReport savedDesc :=
  ⟨fun _ _ _ h1 h2 => Nat.le_trans h2 h1⟩

/-- A stable sort by `saved_at` descending: the model of both Python's
`sorted(MEMORY_REPORTS, key=lambda x: x.saved_at, reverse=True)` (line 296/
299) and MongoDB's `.sort("saved_at", -1)` (line 282); both are stable
descending sorts on the `saved_at` key. -/
def sortSavedDesc (l : List SavedReport) : List SavedReport :=
  l.insertionSort savedDesc

/-- The `/save-report` endpoint (lines 251–274).  `insertFails` is the
failure oracle for `db.reports.insert_one`; `newId` stands for the generated
`uuid4` and `now` for `datetime.utcnow()` of the `SavedReport`. -/
def save_report (insertFails : Bool) (report : AnalyzedReport)
    (newId : String) (now : Nat) (st : ServerState) :
    Except HTTPError SavedReport × ServerState :=
  let saved : SavedReport := ⟨newId, report, now⟩
  if st.useMongodb && st.dbPresent then
    if insertFails then
      (.ok saved, { st with memoryReports := st.memoryReports ++ [saved] })
    else
      (.ok saved, { st with mongoReports := st.mongoReports ++ [saved] })
  else
    (.ok saved, { st with memoryReports := st.memoryReports ++ [saved] })

/-- The `GET /reports` endpoint (lines 276–302).  `fetchFails` is the
failure oracle for the MongoDB `find()` round trip (line 282); on failure the
endpoint falls back to the in-memory collection (line 296). -/
def get_reports (fetchFails : Bool) (st : ServerState) :
    Except HTTPError (List SavedReport) :=
  if st.useMongodb && st.dbPresent then
    if fetchFails then
      .ok (sortSavedDesc st.memoryReports)
    else
      .ok ((sortSavedDesc st.mongoReports).take 100)
  else
    .ok (sortSavedDesc st.memoryReports)

/-- MongoDB `find_one({"id": report_id})`: first record with that `id`. -/
def findOne (report_id : String) (coll : List SavedReport) :
    Option SavedReport :=
  coll.find? (fun r => r.id == report_id)

/-- Removing the first element satisfying `p`; `none` when no element
matches.  Models both `MEMORY_REPORTS.pop(i)` at the first matching index
(lines 338–341) and MongoDB `delete_one` (line 334). -/
def removeFirst (p : SavedReport → Bool) : List SavedReport →
    Option (List SavedReport)
  | [] => none
  | x :: xs => if p x then some xs else (removeFirst p xs).map (x :: ·)

/-- The `DELETE /reports/{report_id}` endpoint (lines 329–348).  Note line
333 branches on `USE_MONGODB` alone, without the `db is not None` guard. -/
def delete_report (report_id : String) (st : ServerState) :
    Except HTTPError String × ServerState :=
  if st.useMongodb then
    match removeFirst (fun r => r.id == report_id) st.mongoReports with
    | some l => (.ok "Report deleted successfully",
                 { st with mongoReports := l })
    | none => (.error ⟨404, "Report not found"⟩, st)
  else
    match removeFirst (fun r => r.id == report_id) st.memoryReports with
    | some l => (.ok "Report deleted successfully",
                 { st with memoryReports := l })
    | none => (.error ⟨404, "Report not found"⟩, st)

/-! ## Report comparison (`compare_reports`, lines 350–394) -/

/-- One `{date, value, status}` entry of a parameter timeline (lines
381–385). -/
structure TrendEntry where
  date : Nat
  value : String
  status : String
deriving DecidableEq

/-- The comparison payload (lines 368–371): the fetched reports and
`parameter_trends`, a Python dict modelled as an association list in key
insertion order. -/
structure Comparison where
  reports : List SavedReport
  parameter_trends : List (String × List TrendEntry)
deriving DecidableEq

/-- Lookup in the `parameter_trends` dict. -/
def trendsGet (m : List (String × List TrendEntry)) (k : String) :
    Option (List TrendEntry) :=
  (m.find? (fun kv => kv.1 == k)).map (·.2)

/-- `all_params[param_name].append(entry)`, creating the key at the end of
the dict when absent (lines 379–385). -/
def addTrend (m : List (String × List TrendEntry)) (k : String)
    (e : TrendEntry) : List (String × List TrendEntry) :=
  match m with
  | [] => [(k, [e])]
  | (k', es) :: rest =>
    if k' == k then (k', es ++ [e]) :: rest
    else (k', es) :: addTrend rest k e

/-- Lines 374–385: group every parameter of every fetched report by
parameter name, in report order then parameter order. -/
def buildTrends (reports : List SavedReport) :
    List (String × List TrendEntry) :=
  reports.foldl
    (fun m r =>
      r.report_data.parameters.foldl
        (fun m p => addTrend m p.name ⟨r.saved_at, p.value, p.status⟩)
        m)
    []

/-- The stringified `AttributeError` raised when `db` is `None` and
`db.reports` is dereferenced (line 359 with `db = None`), surfaced by the
broad `except` as a 500 detail. -/
def dbNoneDetail : String :=
  "'NoneType' object has no attribute 'reports'"

/-- The `/compare-reports` endpoint (lines 350–394).  The id-count check
precedes any database access; the fetch loop dereferences `db.reports`
unconditionally — with no configured database (`db = None`) this raises and
becomes a 500.  Resolution keeps the request order of ids, skipping ids with
no record. -/
def compare_reports (report_ids : List String) (st : ServerState) :
    Except HTTPError Comparison :=
  if report_ids.length < 2 then
    .error ⟨400, "Need at least 2 reports to compare"⟩
  else if !st.dbPresent then
    .error ⟨500, dbNoneDetail⟩
  else
    let reports := report_ids.filterMap (fun i => findOne i st.mongoReports)
    if reports.length < 2 then
      .error ⟨404, "Not enough reports found"⟩
    else
      .ok ⟨reports, buildTrends reports⟩

/-! # Verified properties

## C2: fence stripping -/

lemma dropWhile_ws_eq_self_of_head (l : List Char)
    (h : l.head?.all (fun c => !c.isWhitespace) = true) :
    l.dropWhile Char.isWhitespace = l := by
  cases l with
  | nil => rfl
  | cons x xs =>
    simp only [List.head?_cons, Option.all_some, Bool.not_eq_true'] at h
    simp [List.dropWhile_cons, h]

lemma rdropWhile_ws_eq_self_of_getLast (l : List Char)
    (h : l.getLast?.all (fun c => !c.isWhitespace) = true) :
    l.rdropWhile Char.isWhitespace = l := by
  rw [List.rdropWhile_eq_self_iff]
  intro hl
  rw [List.getLast?_eq_getLast_of_ne_nil hl] at h
  simp only [Option.all_some, Bool.not_eq_true'] at h
  simp [h]

lemma pyStrip_eq_self (l : List Char)
    (h1 : l.head?.all (fun c => !c.isWhitespace) = true)
    (h2 : l.getLast?.all (fun c => !c.isWhitespace) = true) :
    pyStrip l = l := by
  unfold pyStrip
  rw [dropWhile_ws_eq_self_of_head l h1, rdropWhile_ws_eq_self_of_getLast l h2]

lemma dropWhile_ws_of_prefix_eq_self {l m : List Char} (hm : m <+: l)
    (hl : l.dropWhile Char.isWhitespace = l) :
    m.dropWhile Char.isWhitespace = m := by
  rw [List.dropWhile_eq_self_iff] at hl ⊢
  intro h0
  have hlen : 0 < l.length := lt_of_lt_of_le h0 hm.length_le
  have hget : m.get ⟨0, h0⟩ = l.get ⟨0, hlen⟩ := by
    obtain ⟨t, rfl⟩ := hm
    simp only [List.get_eq_getElem]
    exact (List.getElem_append_left h0).symm
  rw [hget]
  exact hl hlen

lemma pyStrip_idem (l : List Char) : pyStrip (pyStrip l) = pyStrip l := by
  unfold pyStrip
  rw [dropWhile_ws_of_prefix_eq_self (List.rdropWhile_prefix _ _)
        (List.dropWhile_idempotent _ _),
      List.rdropWhile_idempotent]

lemma pyStrip_infix_self (l : List Char) : pyStrip l <:+: l :=
  ((List.rdropWhile_prefix _ _).isInfix).trans
    ((List.dropWhile_suffix _).isInfix)

lemma stripJsonMarker_suffix (c : List Char) : stripJsonMarker c <:+ c := by
  unfold stripJsonMarker
  split
  · exact List.drop_suffix _ _
  · exact List.suffix_rfl

lemma stripTickPrefix_suffix (c : List Char) : stripTickPrefix c <:+ c := by
  unfold stripTickPrefix
  split
  · exact List.drop_suffix _ _
  · exact List.suffix_rfl

lemma stripTickSuffix_prefix_self (c : List Char) : stripTickSuffix c <+: c := by
  unfold stripTickSuffix
  split
  · exact List.take_prefix _ _
  · exact List.prefix_rfl

lemma cleanResponse_infix (s : List Char) : cleanResponse s <:+: s := by
  unfold cleanResponse
  exact (pyStrip_infix_self _).trans <| ((stripTickSuffix_prefix_self _).isInfix).trans <|
    ((stripTickPrefix_suffix _).isInfix).trans <|
    ((stripJsonMarker_suffix _).isInfix).trans (pyStrip_infix_self _)

lemma pyStrip_wrapJsonFence (t : List Char) :
    pyStrip (wrapJsonFence t) = wrapJsonFence t := by
  apply pyStrip_eq_self
  · rw [wrapJsonFence, List.append_assoc,
        List.head?_append_of_ne_nil _ (by decide)]
    decide
  · rw [wrapJsonFence, List.getLast?_append_of_ne_nil _ (by decide)]
    decide

lemma cleanResponse_wrapJsonFence (t : List Char)
    (h1 : pyStartswith (t ++ "```".toList) ("```".toList) = false) :
    cleanResponse (wrapJsonFence t) = pyStrip t := by
  unfold cleanResponse
  rw [pyStrip_wrapJsonFence]
  have hpre : pyStartswith (wrapJsonFence t) ("```json".toList) = true := by
    unfold pyStartswith wrapJsonFence
    rw [List.append_assoc, List.isPrefixOf_iff_prefix]
    exact List.prefix_append _ _
  have hdrop : (wrapJsonFence t).drop 7 = t ++ "```".toList := by
    unfold wrapJsonFence
    rw [List.append_assoc]
    exact List.drop_left' (by decide)
  have hsuf : pyEndswith (t ++ "```".toList) ("```".toList) = true := by
    unfold pyEndswith
    rw [List.isSuffixOf_iff_suffix]
    exact List.suffix_append _ _
  have hdr : pyDropRight (t ++ "```".toList) 3 = t := by
    unfold pyDropRight
    have h3l : ("```".toList).length = 3 := by decide
    rw [List.length_append, h3l, Nat.add_sub_cancel]
    exact List.take_left _ _
  unfold stripJsonMarker
  rw [hpre, if_pos rfl, hdrop]
  unfold stripTickPrefix
  rw [h1, if_neg (by simp)]
  unfold stripTickSuffix
  rw [hsuf, if_pos rfl, hdr]

lemma startswith_ticks_of_startswith_json {s : List Char}
    (h : pyStartswith s ("```json".toList) = true) :
    pyStartswith s ("```".toList) = true := by
  unfold pyStartswith at h ⊢
  rw [List.isPrefixOf_iff_prefix] at h ⊢
  exact List.IsPrefix.trans (by decide) h

lemma cleanResponse_no_markers (t : List Char)
    (h2 : pyStartswith (pyStrip t) ("```".toList) = false)
    (h3 : pyEndswith (pyStrip t) ("```".toList) = false) :
    cleanResponse t = pyStrip t := by
  have hj : pyStartswith (pyStrip t) ("```json".toList) = false := by
    cases hb : pyStartswith (pyStrip t) ("```json".toList) with
    | false => rfl
    | true => rw [startswith_ticks_of_startswith_json hb] at h2; cases h2
  unfold cleanResponse stripJsonMarker stripTickPrefix stripTickSuffix
  rw [hj]
  simp only [Bool.false_eq_true, if_false]
  rw [h2]
  simp only [Bool.false_eq_true, if_false]
  rw [h3]
  simp only [Bool.false_eq_true, if_false]
  exact pyStrip_idem t

/-- C2 counterexample: the code makes *two* leading strip attempts — first
`"```json"`, then `"```"` — so on the input `"```json```5```"` both fire
and the result is `"5"`, while a normaliser performing exactly one leading
strip attempt (`cleanResponseSpecSingle`, modelled from the spec's words)
yields `"```5"`.  The claim's "exactly one strip attempt on each side" is
therefore false of the code at this input. -/
theorem cleanResponse_single_strip_counterexample_C2 :
    cleanResponse ("```json```5```".toList) = "5".toList ∧
    cleanResponseSpecSingle ("```json```5```".toList) = "```5".toList ∧
    cleanResponse ("```json```5```".toList) ≠
      cleanResponseSpecSingle ("```json```5```".toList) := by
  decide

/-- C2 (amended): the normaliser strips at most one leading
language-tagged marker `"```json"` followed by at most one plain leading
`"```"` marker (two sequential conditional strips, not recursive) and at
most one trailing `"```"` marker; its output is always an infix of the
input (nothing is added, no rewriting beyond marker/whitespace removal).
For any text `t` whose stripped form carries no fence marker of its own at
either end (hypotheses `h1`–`h3`), wrapping `t` in a fenced block
(`"```json" + t + "```"`) cleans to exactly `pyStrip t` — the same result
as cleaning unwrapped `t` — so any parse of the wrapped response yields the
same structured result as a parse of the unwrapped text. -/
theorem cleanResponse_amended_C2 (parse : List Char → Option Jobj)
    (s t : List Char)
    (h1 : pyStartswith (t ++ "```".toList) ("```".toList) = false)
    (h2 : pyStartswith (pyStrip t) ("```".toList) = false)
    (h3 : pyEndswith (pyStrip t) ("```".toList) = false) :
    cleanResponse (wrapJsonFence t) = pyStrip t ∧
    cleanResponse t = pyStrip t ∧
    parse (cleanResponse (wrapJsonFence t)) = parse (cleanResponse t) ∧
    cleanResponse s <:+: s := by
  refine ⟨cleanResponse_wrapJsonFence t h1, cleanResponse_no_markers t h2 h3,
    ?_, cleanResponse_infix s⟩
  rw [cleanResponse_wrapJsonFence t h1, cleanResponse_no_markers t h2 h3]

/-- Witness for `cleanResponse_amended_C2` at `t = "5"`, `s = "x"`: the
hypotheses hold and a fenced `"```json5```"` cleans to `"5"` exactly as the
unwrapped `"5"` does. -/
theorem cleanResponse_amended_C2_witness :
    (pyStartswith ("5".toList ++ "```".toList) ("```".toList) = false ∧
     pyStartswith (pyStrip ("5".toList)) ("```".toList) = false ∧
     pyEndswith (pyStrip ("5".toList)) ("```".toList) = false) ∧
    (cleanResponse (wrapJsonFence ("5".toList)) = pyStrip ("5".toList) ∧
     cleanResponse ("5".toList) = pyStrip ("5".toList) ∧
     (fun _ => (none : Option Jobj)) (cleanResponse (wrapJsonFence ("5".toList))) =
       (fun _ => (none : Option Jobj)) (cleanResponse ("5".toList)) ∧
     cleanResponse ("x".toList) <:+: "x".toList) :=
  ⟨⟨by decide, by decide, by decide⟩,
   cleanResponse_amended_C2 (fun _ => none) ("x".toList) ("5".toList)
     (by decide) (by decide) (by decide)⟩

/-! ## C7: empty image rejected before any LLM call -/

/-- C7: for every request whose `image_base64` is the empty string —
whatever the parse function, API-key configuration, LLM behaviour, or server
state — the endpoint returns 400 with detail "No image provided", the state
is untouched, and the LLM call count is zero. -/
theorem analyze_report_empty_image_400_no_llm_call_C7
    (parse : List Char → Option Jobj) (apiKeyPresent : Bool)
    (llmErr : Option String) (llmResponse : List Char)
    (newId : String) (now : Nat) (st : ServerState) :
    analyze_report parse apiKeyPresent llmErr llmResponse [] newId now st =
      (.error ⟨400, "No image provided"⟩, st, 0) :=
  rfl

/-! ## C4: unparseable LLM output is a 500 with no stored side effect -/

/-- C4: when the LLM response text does not parse as a structured document
after fence stripping (`parse (cleanResponse llmResponse) = none`), the
analyze endpoint fails with HTTP 500 "Failed to parse AI response", exactly
one LLM call was made (no retry), and the server state — both stored
collections — is unchanged, so no `SavedReport` is created. -/
theorem analyze_report_unparseable_500_C4
    (parse : List Char → Option Jobj) (llmResponse image_base64 : List Char)
    (newId : String) (now : Nat) (st : ServerState)
    (himg : image_base64 ≠ [])
    (hparse : parse (cleanResponse llmResponse) = none) :
    analyze_report parse true none llmResponse image_base64 newId now st =
      (.error ⟨500, "Failed to parse AI response"⟩, st, 1) := by
  unfold analyze_report analyze_medical_report
  rw [if_neg (by simp [List.isEmpty_iff, himg])]
  simp [hparse]

/-- Witness for `analyze_report_unparseable_500_C4`: a parse that rejects
everything, a one-character image, an arbitrary state. -/
theorem analyze_report_unparseable_500_C4_witness :
    ("a".toList ≠ ([] : List Char) ∧
     (fun _ => (none : Option Jobj)) (cleanResponse ("x".toList)) = none) ∧
    analyze_report (fun _ => none) true none ("x".toList) ("a".toList) "id0" 7
        ⟨false, false, [], []⟩ =
      (.error ⟨500, "Failed to parse AI response"⟩, ⟨false, false, [], []⟩, 1) :=
  ⟨⟨by decide, rfl⟩,
   analyze_report_unparseable_500_C4 (fun _ => none) ("x".toList) ("a".toList)
     "id0" 7 ⟨false, false, [], []⟩ (by decide) rfl⟩

/-! ## C1: create() falls back to the in-memory collection on a durable
failure and still succeeds -/

/-- C1: in MongoDB mode, when `insert_one` throws (`insertFails = true`),
`save_report` still returns success with the same `SavedReport`, the entity
is appended to the in-process collection (and the durable collection is
untouched), and a subsequent `GET /reports` whose durable fetch also fails
serves the in-memory fallback, in which the entity is visible. -/
theorem save_report_mongo_failure_fallback_C1
    (report : AnalyzedReport) (newId : String) (now : Nat) (st : ServerState)
    (hm : st.useMongodb = true) (hdb : st.dbPresent = true) :
    save_report true report newId now st =
      (.ok ⟨newId, report, now⟩,
       { st with memoryReports := st.memoryReports ++ [⟨newId, report, now⟩] }) ∧
    get_reports true
        { st with memoryReports := st.memoryReports ++ [⟨newId, report, now⟩] } =
      .ok (sortSavedDesc (st.memoryReports ++ [⟨newId, report, now⟩])) ∧
    (⟨newId, report, now⟩ : SavedReport) ∈
      sortSavedDesc (st.memoryReports ++ [⟨newId, report, now⟩]) := by
  refine ⟨?_, ?_, ?_⟩
  · unfold save_report
    rw [if_pos (by rw [hm, hdb]; rfl), if_pos rfl]
  · unfold get_reports
    rw [if_pos (by rw [hm, hdb]; rfl), if_pos rfl]
  · unfold sortSavedDesc
    rw [List.mem_insertionSort]
    exact List.mem_append_right _ (List.mem_singleton.mpr rfl)

/-- Witness for `save_report_mongo_failure_fallback_C1` on a concrete
MongoDB-mode state with one pre-existing memory report. -/
theorem save_report_mongo_failure_fallback_C1_witness :
    ((⟨true, true, [], [⟨"m0", ⟨"a0", "blood_test", "T", "S", none, [], [],
        none, "good", 1, none⟩, 2⟩]⟩ : ServerState).useMongodb = true ∧
     (⟨true, true, [], [⟨"m0", ⟨"a0", "blood_test", "T", "S", none, [], [],
        none, "good", 1, none⟩, 2⟩]⟩ : ServerState).dbPresent = true) ∧
    ((⟨"s1", ⟨"a1", "blood_test", "T1", "S1", none, [], [], none, "good",
        3, none⟩, 4⟩ : SavedReport) ∈
      sortSavedDesc ([⟨"m0", ⟨"a0", "blood_test", "T", "S", none, [], [],
        none, "good", 1, none⟩, 2⟩] ++
        [⟨"s1", ⟨"a1", "blood_test", "T1", "S1", none, [], [], none, "good",
          3, none⟩, 4⟩])) :=
  ⟨⟨rfl, rfl⟩,
   (save_report_mongo_failure_fallback_C1
     ⟨"a1", "blood_test", "T1", "S1", none, [], [], none, "good", 3, none⟩
     "s1" 4
     ⟨true, true, [], [⟨"m0", ⟨"a0", "blood_test", "T", "S", none, [], [],
       none, "good", 1, none⟩, 2⟩]⟩ rfl rfl).2.2⟩

/-! ## C3: defaulting of absent fields, discarding of unexpected fields -/

lemma fieldStr_default {o : Jobj} {k d : String} (h : dictGet o k = none) :
    fieldStr o k d = some d := by
  unfold fieldStr
  rw [h]

lemma fieldOptStr_default {o : Jobj} {k : String} (h : dictGet o k = none) :
    fieldOptStr o k = some none := by
  unfold fieldOptStr
  rw [h]

lemma fieldStrList_default {o : Jobj} {k : String} (h : dictGet o k = none) :
    fieldStrList o k = some [] := by
  unfold fieldStrList
  rw [h]

lemma fieldOptStrList_default {o : Jobj} {k : String}
    (h : dictGet o k = none) : fieldOptStrList o k = some none := by
  unfold fieldOptStrList
  rw [h]

lemma buildParameter_fields {p : Jobj} {hp : HealthParameter}
    (h : buildParameter p = some hp) :
    fieldStr p "name" "Unknown" = some hp.name ∧
    fieldStr p "value" "N/A" = some hp.value ∧
    fieldStr p "unit" "" = some hp.unit ∧
    fieldStr p "normal_range" "N/A" = some hp.normal_range ∧
    fieldStr p "status" "normal" = some hp.status ∧
    fieldStr p "explanation" "" = some hp.explanation ∧
    fieldOptStr p "hindi_explanation" = some hp.hindi_explanation := by
  unfold buildParameter at h
  split at h
  · rename_i hn hv hu hnr hs he hhe
    cases h
    exact ⟨hn, hv, hu, hnr, hs, he, hhe⟩
  · cases h

lemma buildAnalyzedReport_fields {analysis : Jobj} {img : List Char}
    {newId : String} {now : Nat} {r : AnalyzedReport}
    (h : buildAnalyzedReport analysis img newId now = some r) :
    buildParameters analysis = some r.parameters ∧
    fieldStr analysis "report_type" "blood_test" = some r.report_type ∧
    fieldStr analysis "title" "Medical Report" = some r.title ∧
    fieldStr analysis "summary" "Report analyzed successfully" =
      some r.summary ∧
    fieldOptStr analysis "hindi_summary" = some r.hindi_summary ∧
    fieldStrList analysis "health_tips" = some r.health_tips ∧
    fieldOptStrList analysis "hindi_health_tips" =
      some r.hindi_health_tips ∧
    fieldStr analysis "overall_status" "moderate" = some r.overall_status ∧
    r.id = newId ∧ r.created_at = now ∧
    r.image_base64 = some (truncImage img) := by
  unfold buildAnalyzedReport at h
  split at h
  · rename_i hpar hrt ht hs hhs htips hhtips hov
    cases h
    exact ⟨hpar, hrt, ht, hs, hhs, htips, hhtips, hov, rfl, rfl, rfl⟩
  · cases h

lemma dictGet_append_single (o : Jobj) (k : String) (v : Jval) (k' : String)
    (h : (k == k') = false) : dictGet (o ++ [(k, v)]) k' = dictGet o k' := by
  unfold dictGet
  rw [List.find?_append]
  cases hf : o.find? (fun kv => kv.1 == k') with
  | some x => simp
  | none => simp [List.find?, h]

lemma fieldStr_append {o : Jobj} {k : String} {v : Jval} {k' d : String}
    (h : (k == k') = false) : fieldStr (o ++ [(k, v)]) k' d = fieldStr o k' d := by
  unfold fieldStr
  rw [dictGet_append_single o k v k' h]

lemma fieldOptStr_append {o : Jobj} {k : String} {v : Jval} {k' : String}
    (h : (k == k') = false) : fieldOptStr (o ++ [(k, v)]) k' = fieldOptStr o k' := by
  unfold fieldOptStr
  rw [dictGet_append_single o k v k' h]

lemma fieldStrList_append {o : Jobj} {k : String} {v : Jval} {k' : String}
    (h : (k == k') = false) :
    fieldStrList (o ++ [(k, v)]) k' = fieldStrList o k' := by
  unfold fieldStrList
  rw [dictGet_append_single o k v k' h]

lemma fieldOptStrList_append {o : Jobj} {k : String} {v : Jval} {k' : String}
    (h : (k == k') = false) :
    fieldOptStrList (o ++ [(k, v)]) k' = fieldOptStrList o k' := by
  unfold fieldOptStrList
  rw [dictGet_append_single o k v k' h]

lemma buildParameters_append {o : Jobj} {k : String} {v : Jval}
    (h : (k == "parameters") = false) :
    buildParameters (o ++ [(k, v)]) = buildParameters o := by
  unfold buildParameters
  rw [dictGet_append_single o k v _ h]

lemma buildParameter_append {p : Jobj} {k : String} {v : Jval}
    (hk : k ∉ expectedParamKeys) :
    buildParameter (p ++ [(k, v)]) = buildParameter p := by
  simp only [expectedParamKeys, List.mem_cons, List.not_mem_nil, or_false,
    not_or] at hk
  obtain ⟨h1, h2, h3, h4, h5, h6, h7⟩ := hk
  unfold buildParameter
  rw [fieldStr_append (beq_eq_false_iff_ne.mpr h1),
      fieldStr_append (beq_eq_false_iff_ne.mpr h2),
      fieldStr_append (beq_eq_false_iff_ne.mpr h3),
      fieldStr_append (beq_eq_false_iff_ne.mpr h4),
      fieldStr_append (beq_eq_false_iff_ne.mpr h5),
      fieldStr_append (beq_eq_false_iff_ne.mpr h6),
      fieldOptStr_append (beq_eq_false_iff_ne.mpr h7)]

lemma buildAnalyzedReport_append {analysis : Jobj} {k : String} {v : Jval}
    {img : List Char} {newId : String} {now : Nat}
    (hk : k ∉ expectedTopKeys) :
    buildAnalyzedReport (analysis ++ [(k, v)]) img newId now =
      buildAnalyzedReport analysis img newId now := by
  simp only [expectedTopKeys, List.mem_cons, List.not_mem_nil, or_false,
    not_or] at hk
  obtain ⟨h1, h2, h3, h4, h5, h6, h7, h8⟩ := hk
  unfold buildAnalyzedReport
  rw [buildParameters_append (beq_eq_false_iff_ne.mpr h1),
      fieldStr_append (beq_eq_false_iff_ne.mpr h2),
      fieldStr_append (beq_eq_false_iff_ne.mpr h3),
      fieldStr_append (beq_eq_false_iff_ne.mpr h4),
      fieldOptStr_append (beq_eq_false_iff_ne.mpr h5),
      fieldStrList_append (beq_eq_false_iff_ne.mpr h6),
      fieldOptStrList_append (beq_eq_false_iff_ne.mpr h7),
      fieldStr_append (beq_eq_false_iff_ne.mpr h8)]

/-- C3: for a successfully normalised response object, every absent expected
top-level field receives its defined default (`report_type`→"blood_test",
`title`→"Medical Report", `summary`→"Report analyzed successfully",
`health_tips`→`[]`, `overall_status`→"moderate"); absent secondary-language
fields stay absent (`None`), not defaulted; every element of the parameters
list receives its per-field defaults when absent; and fields outside the
expected schema are discarded without error — appending any unexpected field
to the response object (or to a parameter object) leaves the constructed
report unchanged. -/
theorem buildAnalyzedReport_defaults_C3
    (analysis : Jobj) (img : List Char) (newId : String) (now : Nat)
    (r : AnalyzedReport)
    (hbuild : buildAnalyzedReport analysis img newId now = some r) :
    (dictGet analysis "report_type" = none → r.report_type = "blood_test") ∧
    (dictGet analysis "title" = none → r.title = "Medical Report") ∧
    (dictGet analysis "summary" = none →
      r.summary = "Report analyzed successfully") ∧
    (dictGet analysis "health_tips" = none → r.health_tips = []) ∧
    (dictGet analysis "overall_status" = none →
      r.overall_status = "moderate") ∧
    (dictGet analysis "hindi_summary" = none → r.hindi_summary = none) ∧
    (dictGet analysis "hindi_health_tips" = none →
      r.hindi_health_tips = none) ∧
    (∀ p hp, buildParameter p = some hp →
      (dictGet p "name" = none → hp.name = "Unknown") ∧
      (dictGet p "value" = none → hp.value = "N/A") ∧
      (dictGet p "unit" = none → hp.unit = "") ∧
      (dictGet p "normal_range" = none → hp.normal_range = "N/A") ∧
      (dictGet p "status" = none → hp.status = "normal") ∧
      (dictGet p "explanation" = none → hp.explanation = "") ∧
      (dictGet p "hindi_explanation" = none → hp.hindi_explanation = none)) ∧
    (∀ k v, k ∉ expectedTopKeys →
      buildAnalyzedReport (analysis ++ [(k, v)]) img newId now = some r) ∧
    (∀ p hp k v, buildParameter p = some hp → k ∉ expectedParamKeys →
      buildParameter (p ++ [(k, v)]) = some hp) := by
  obtain ⟨hpar, hrt, ht, hs, hhs, htips, hhtips, hov, _, _, _⟩ :=
    buildAnalyzedReport_fields hbuild
  refine ⟨?_, ?_, ?_, ?_, ?_, ?_, ?_, ?_, ?_, ?_⟩
  · intro hd
    rw [fieldStr_default hd] at hrt
    exact (Option.some_inj.mp hrt).symm
  · intro hd
    rw [fieldStr_default hd] at ht
    exact (Option.some_inj.mp ht).symm
  · intro hd
    rw [fieldStr_default hd] at hs
    exact (Option.some_inj.mp hs).symm
  · intro hd
    rw [fieldStrList_default hd] at htips
    exact (Option.some_inj.mp htips).symm
  · intro hd
    rw [fieldStr_default hd] at hov
    exact (Option.some_inj.mp hov).symm
  · intro hd
    rw [fieldOptStr_default hd] at hhs
    exact (Option.some_inj.mp hhs).symm
  · intro hd
    rw [fieldOptStrList_default hd] at hhtips
    exact (Option.some_inj.mp hhtips).symm
  · intro p hp hbp
    obtain ⟨hn, hv, hu, hnr, hst, he, hhe⟩ := buildParameter_fields hbp
    refine ⟨?_, ?_, ?_, ?_, ?_, ?_, ?_⟩ <;> intro hd
    · rw [fieldStr_default hd] at hn
      exact (Option.some_inj.mp hn).symm
    · rw [fieldStr_default hd] at hv
      exact (Option.some_inj.mp hv).symm
    · rw [fieldStr_default hd] at hu
      exact (Option.some_inj.mp hu).symm
    · rw [fieldStr_default hd] at hnr
      exact (Option.some_inj.mp hnr).symm
    · rw [fieldStr_default hd] at hst
      exact (Option.some_inj.mp hst).symm
    · rw [fieldStr_default hd] at he
      exact (Option.some_inj.mp he).symm
    · rw [fieldOptStr_default hd] at hhe
      exact (Option.some_inj.mp hhe).symm
  · intro k v hk
    rw [buildAnalyzedReport_append hk]
    exact hbuild
  · intro p hp k v hbp hk
    rw [buildParameter_append hk]
    exact hbp

/-- The all-defaults report built from the empty response object. -/
def defaultBuiltReport : AnalyzedReport :=
  ⟨"id0", "blood_test", "Medical Report", "Report analyzed successfully",
   none, [], [], none, "moderate", 7, some ("img...".toList)⟩

/-- Witness for `buildAnalyzedReport_defaults_C3`: the empty parsed object
(every expected field absent) builds successfully and every conclusion holds
of the resulting all-defaults report. -/
theorem buildAnalyzedReport_defaults_C3_witness :
    buildAnalyzedReport [] ("img".toList) "id0" 7 =
      some defaultBuiltReport ∧
    (defaultBuiltReport.report_type = "blood_test" ∧
     defaultBuiltReport.title = "Medical Report" ∧
     defaultBuiltReport.summary = "Report analyzed successfully" ∧
     defaultBuiltReport.health_tips = [] ∧
     defaultBuiltReport.overall_status = "moderate" ∧
     defaultBuiltReport.hindi_summary = none ∧
     defaultBuiltReport.hindi_health_tips = none ∧
     buildParameter [] = some ⟨"Unknown", "N/A", "", "N/A", "normal", "",
       none⟩ ∧
     buildAnalyzedReport ([] ++ [("unexpected", Jval.null)]) ("img".toList)
       "id0" 7 = some defaultBuiltReport ∧
     buildParameter ([] ++ [("unexpected", Jval.null)]) =
       some ⟨"Unknown", "N/A", "", "N/A", "normal", "", none⟩) := by
  have h := buildAnalyzedReport_defaults_C3 [] ("img".toList) "id0" 7
    defaultBuiltReport rfl
  refine ⟨rfl, h.1 rfl, h.2.1 rfl, h.2.2.1 rfl, h.2.2.2.1 rfl,
    h.2.2.2.2.1 rfl, h.2.2.2.2.2.1 rfl, h.2.2.2.2.2.2.1 rfl, rfl,
    h.2.2.2.2.2.2.2.2.1 "unexpected" Jval.null (by decide), ?_⟩
  exact h.2.2.2.2.2.2.2.2.2 [] ⟨"Unknown", "N/A", "", "N/A", "normal", "",
    none⟩ "unexpected" Jval.null rfl (by decide)

/-! ## C5 and C6: report comparison -/

/-- The timeline the specification describes for one parameter name: walk
the fetched reports in the order they were found, and within each report its
parameters in order, keeping the `{date, value, status}` entries whose
parameter name matches exactly (case-sensitive `BEq` on strings). -/
def collectTrend : List SavedReport → String → List TrendEntry
  | [], _ => []
  | r :: rest, name =>
    (r.report_data.parameters.filter (fun p => p.name == name)).map
      (fun p => ⟨r.saved_at, p.value, p.status⟩) ++ collectTrend rest name

/-- Appending a batch of timeline entries to an optional existing timeline:
`none` stays `none` only when the batch is empty (a dict key is created on
first append). -/
def trendAppend : Option (List TrendEntry) → List TrendEntry →
    Option (List TrendEntry)
  | some es, es2 => some (es ++ es2)
  | none, [] => none
  | none, e :: es2 => some (e :: es2)

lemma trendAppend_assoc (o : Option (List TrendEntry))
    (a b : List TrendEntry) :
    trendAppend (trendAppend o a) b = trendAppend o (a ++ b) := by
  cases o with
  | some es => simp [trendAppend]
  | none =>
    cases a with
    | nil => rfl
    | cons e es => simp [trendAppend]


lemma trendsGet_cons (k0 : String) (es : List TrendEntry)
    (rest : List (String × List TrendEntry)) (k' : String) :
    trendsGet ((k0, es) :: rest) k' =
      if (k0 == k') = true then some es else trendsGet rest k' := by
  unfold trendsGet
  by_cases h : (k0 == k') = true
  · rw [@List.find?_cons_of_pos _ (fun kv => kv.1 == k') (k0, es) rest h,
      if_pos h]
    rfl
  · rw [@List.find?_cons_of_neg _ (fun kv => kv.1 == k') (k0, es) rest h,
      if_neg h]

lemma trendsGet_addTrend (m : List (String × List TrendEntry)) (k : String)
    (e : TrendEntry) (k' : String) :
    trendsGet (addTrend m k e) k' =
      if k' = k then some ((trendsGet m k').getD [] ++ [e])
      else trendsGet m k' := by
  induction m with
  | nil =>
    by_cases hk : k' = k
    · subst hk
      simp [addTrend, trendsGet_cons, trendsGet]
    · simp [addTrend, trendsGet_cons, trendsGet, hk,
        beq_eq_false_iff_ne.mpr (Ne.symm hk)]
  | cons kv rest ih =>
    obtain ⟨k0, es0⟩ := kv
    by_cases h0 : (k0 == k) = true
    · have h0' : k0 = k := beq_iff_eq.mp h0
      subst h0'
      simp only [addTrend]
      rw [if_pos h0, trendsGet_cons, trendsGet_cons]
      by_cases hk : k' = k0
      · subst hk
        rw [if_pos (beq_self_eq_true _), if_pos (beq_self_eq_true _),
          if_pos rfl]
        rfl
      · have hne : ¬((k0 == k') = true) :=
          fun hh => hk (beq_iff_eq.mp hh).symm
        rw [if_neg hne, if_neg hk, if_neg hne]
    · simp only [addTrend]
      rw [if_neg h0, trendsGet_cons, trendsGet_cons, ih]
      by_cases hk0 : (k0 == k') = true
      · have hk0' : k0 = k' := beq_iff_eq.mp hk0
        subst hk0'
        have hkk : ¬(k0 = k) := fun hh => h0 (beq_iff_eq.mpr hh)
        rw [if_pos (beq_self_eq_true _), if_neg hkk,
          if_pos (beq_self_eq_true _)]
      · simp only [if_neg hk0]

lemma trendsGet_param_foldl (ps : List HealthParameter) (d : Nat)
    (m : List (String × List TrendEntry)) (name : String) :
    trendsGet
        (ps.foldl (fun m p => addTrend m p.name ⟨d, p.value, p.status⟩) m)
        name =
      trendAppend (trendsGet m name)
        ((ps.filter (fun p => p.name == name)).map
          (fun p => ⟨d, p.value, p.status⟩)) := by
  induction ps generalizing m with
  | nil =>
    simp only [List.foldl_nil, List.filter_nil, List.map_nil]
    cases h : trendsGet m name with
    | none => rfl
    | some es => simp [trendAppend]
  | cons p rest ih =>
    rw [List.foldl_cons, ih, trendsGet_addTrend]
    by_cases hp : (p.name == name) = true
    · have hp' : name = p.name := (beq_iff_eq.mp hp).symm
      rw [if_pos hp',
        @List.filter_cons_of_pos _ (fun q => q.name == name) p rest hp,
        List.map_cons]
      cases hm : trendsGet m name with
      | none => simp [trendAppend]
      | some es => simp [trendAppend]
    · rw [if_neg (fun hh => hp (beq_iff_eq.mpr hh.symm)),
        @List.filter_cons_of_neg _ (fun q => q.name == name) p rest hp]

lemma trendsGet_report_foldl (reports : List SavedReport)
    (m : List (String × List TrendEntry)) (name : String) :
    trendsGet
        (reports.foldl (fun m r =>
          r.report_data.parameters.foldl
            (fun m p => addTrend m p.name ⟨r.saved_at, p.value, p.status⟩) m)
          m)
        name =
      trendAppend (trendsGet m name) (collectTrend reports name) := by
  induction reports generalizing m with
  | nil =>
    simp only [List.foldl_nil, collectTrend]
    cases h : trendsGet m name with
    | none => rfl
    | some es => simp [trendAppend]
  | cons r rest ih =>
    rw [List.foldl_cons, ih, trendsGet_param_foldl, collectTrend,
      trendAppend_assoc]

/-- The grouping invariant of `compare_reports`: looking one parameter name
up in `parameter_trends` yields exactly the timeline obtained by scanning
the fetched reports in found order (absent iff no report carries the name),
with each report's recorded date, value and status preserved. -/
lemma trendsGet_buildTrends (reports : List SavedReport) (name : String) :
    trendsGet (buildTrends reports) name =
      trendAppend none (collectTrend reports name) := by
  unfold buildTrends
  rw [trendsGet_report_foldl]
  rfl

/-- C5: with a database handle present, the comparison endpoint returns 400
when fewer than two identifiers are supplied; 404 when fewer than two of
them resolve to existing records (resolution in request order, skipping
misses); and otherwise succeeds with the resolved reports and with
`parameter_trends` grouping parameters by exact (case-sensitive) name into
timelines ordered by the order the reports were found — `trendsGet` of any
name equals the in-order scan `collectTrend`, never a date re-sort. -/
theorem compare_reports_spec_C5 (report_ids : List String)
    (st : ServerState) (name : String) (hdb : st.dbPresent = true) :
    (report_ids.length < 2 →
      compare_reports report_ids st =
        .error ⟨400, "Need at least 2 reports to compare"⟩) ∧
    (2 ≤ report_ids.length →
      ((report_ids.filterMap (fun i => findOne i st.mongoReports)).length <
          2 →
        compare_reports report_ids st =
          .error ⟨404, "Not enough reports found"⟩) ∧
      (2 ≤ (report_ids.filterMap
          (fun i => findOne i st.mongoReports)).length →
        compare_reports report_ids st =
          .ok ⟨report_ids.filterMap (fun i => findOne i st.mongoReports),
               buildTrends (report_ids.filterMap
                 (fun i => findOne i st.mongoReports))⟩ ∧
        trendsGet
            (buildTrends (report_ids.filterMap
              (fun i => findOne i st.mongoReports))) name =
          trendAppend none
            (collectTrend (report_ids.filterMap
              (fun i => findOne i st.mongoReports)) name))) := by
  refine ⟨?_, ?_⟩
  · intro hlen
    unfold compare_reports
    rw [if_pos hlen]
  · intro hlen
    constructor
    · intro hres
      unfold compare_reports
      rw [if_neg (Nat.not_lt.mpr hlen), hdb]
      simp only [Bool.not_true, Bool.false_eq_true, if_false]
      rw [if_pos hres]
    · intro hres
      refine ⟨?_, trendsGet_buildTrends _ _⟩
      unfold compare_reports
      rw [if_neg (Nat.not_lt.mpr hlen), hdb]
      simp only [Bool.not_true, Bool.false_eq_true, if_false]
      rw [if_neg (Nat.not_lt.mpr hres)]

/-- A sample measured parameter. -/
def sampleParam (n v : String) : HealthParameter :=
  ⟨n, v, "g/dL", "12-16", "normal", "ok", none⟩

/-- A sample analysed report carrying the given parameters. -/
def sampleAnalyzed (i : String) (ps : List HealthParameter) :
    AnalyzedReport :=
  ⟨i, "blood_test", "CBC", "S", none, ps, [], none, "good", 0, none⟩

/-- A sample saved report. -/
def sampleSaved (i : String) (ps : List HealthParameter) (t : Nat) :
    SavedReport :=
  ⟨i, sampleAnalyzed (i ++ "r") ps, t⟩

/-- A MongoDB-mode state holding two saved reports that share the parameter
name "Hemoglobin" at different values. -/
def cmpState : ServerState :=
  ⟨true, true,
   [sampleSaved "s1" [sampleParam "Hemoglobin" "13.5"] 10,
    sampleSaved "s2" [sampleParam "Hemoglobin" "12.1"] 20], []⟩

/-- On `cmpState`, the "Hemoglobin" timeline has exactly two entries, in
report-found order, each preserving its report's recorded value and
status. -/
lemma cmpState_hemoglobin_timeline :
    trendsGet
        (buildTrends ((["s1", "s2"] : List String).filterMap
          (fun i => findOne i cmpState.mongoReports))) "Hemoglobin" =
      some [⟨10, "13.5", "normal"⟩, ⟨20, "12.1", "normal"⟩] := by
  decide

/-- Witness for `compare_reports_spec_C5` on the concrete two-report
"Hemoglobin" scenario. -/
theorem compare_reports_spec_C5_witness :
    (cmpState.dbPresent = true ∧ 2 ≤ (["s1", "s2"] : List String).length ∧
     2 ≤ ((["s1", "s2"] : List String).filterMap
        (fun i => findOne i cmpState.mongoReports)).length) ∧
    (compare_reports ["s1", "s2"] cmpState =
        .ok ⟨(["s1", "s2"] : List String).filterMap
               (fun i => findOne i cmpState.mongoReports),
             buildTrends ((["s1", "s2"] : List String).filterMap
               (fun i => findOne i cmpState.mongoReports))⟩ ∧
     trendsGet
         (buildTrends ((["s1", "s2"] : List String).filterMap
           (fun i => findOne i cmpState.mongoReports))) "Hemoglobin" =
       trendAppend none
         (collectTrend ((["s1", "s2"] : List String).filterMap
           (fun i => findOne i cmpState.mongoReports)) "Hemoglobin")) :=
  ⟨⟨rfl, by decide, by decide⟩,
   ((compare_reports_spec_C5 ["s1", "s2"] cmpState "Hemoglobin" rfl).2
     (by decide)).2 (by decide)⟩

/-- C6: with no database handle configured (`db = None`), any comparison
request carrying at least two identifiers fails with HTTP 500 (the
`AttributeError` from dereferencing `db.reports`, stringified by the broad
`except`), and the in-memory fallback collection is never consulted — the
same 500 results whatever `memoryReports` holds. -/
theorem compare_reports_no_db_500_C6 (report_ids : List String)
    (st : ServerState) (mem : List SavedReport)
    (hlen : 2 ≤ report_ids.length) (hdb : st.dbPresent = false) :
    compare_reports report_ids st = .error ⟨500, dbNoneDetail⟩ ∧
    compare_reports report_ids { st with memoryReports := mem } =
      .error ⟨500, dbNoneDetail⟩ := by
  constructor <;>
  · unfold compare_reports
    rw [if_neg (Nat.not_lt.mpr hlen)]
    simp [hdb]

/-- Witness for `compare_reports_no_db_500_C6`: two ids, memory-storage
state, non-empty in-memory collection. -/
theorem compare_reports_no_db_500_C6_witness :
    (2 ≤ (["a", "b"] : List String).length ∧
     (⟨false, false, [], []⟩ : ServerState).dbPresent = false) ∧
    (compare_reports ["a", "b"] ⟨false, false, [], []⟩ =
        .error ⟨500, dbNoneDetail⟩ ∧
     compare_reports ["a", "b"]
        { (⟨false, false, [], []⟩ : ServerState) with
          memoryReports := [sampleSaved "a" [] 1] } =
      .error ⟨500, dbNoneDetail⟩) :=
  ⟨⟨by decide, rfl⟩,
   compare_reports_no_db_500_C6 ["a", "b"] ⟨false, false, [], []⟩
     [sampleSaved "a" [] 1] (by decide) rfl⟩

/-! ## C8: list() is sorted by saved_at descending, at most 100 from the
durable backend -/

lemma sortSavedDesc_sorted (x : List SavedReport) :
    (sortSavedDesc x).Sorted savedDesc :=
  List.sorted_insertionSort savedDesc x

lemma sortSavedDesc_perm (x : List SavedReport) :
    (sortSavedDesc x).Perm x :=
  List.perm_insertionSort savedDesc x

/-- C8: whatever the storage state and the outcome of the durable fetch,
`GET /reports` answers with a list sorted by `saved_at` descending (most
recent first), computed from the current collections on this call; when it
is served from the durable backend it carries at most 100 entries (the Mongo
query's `to_list(100)` cap, after sorting); on every other path (memory mode
or durable-fetch fallback) it is a permutation of the full in-memory
collection. -/
theorem get_reports_sorted_C8 (fetchFails : Bool) (st : ServerState)
    (l : List SavedReport) (h : get_reports fetchFails st = .ok l) :
    l.Sorted savedDesc ∧
    ((st.useMongodb && st.dbPresent && !fetchFails) = true →
      l.length ≤ 100 ∧ l = (sortSavedDesc st.mongoReports).take 100) ∧
    ((st.useMongodb && st.dbPresent && !fetchFails) = false →
      l.Perm st.memoryReports) := by
  unfold get_reports at h
  by_cases hA : (st.useMongodb && st.dbPresent) = true
  · rw [if_pos hA] at h
    cases hf : fetchFails
    · rw [hf] at h
      simp only [Bool.false_eq_true, if_false] at h
      injection h with h
      subst h
      refine ⟨?_, ?_, ?_⟩
      · exact List.Pairwise.sublist (List.take_sublist _ _)
          (sortSavedDesc_sorted _)
      · intro _
        exact ⟨List.length_take_le _ _, rfl⟩
      · intro habs
        rw [hA] at habs
        simp at habs
    · rw [hf] at h
      simp only [if_pos rfl] at h
      injection h with h
      subst h
      refine ⟨sortSavedDesc_sorted _, ?_, fun _ => sortSavedDesc_perm _⟩
      intro habs
      simp at habs
  · rw [if_neg hA] at h
    injection h with h
    subst h
    have hA' : (st.useMongodb && st.dbPresent) = false := by
      revert hA
      cases st.useMongodb && st.dbPresent <;> simp
    refine ⟨sortSavedDesc_sorted _, ?_, fun _ => sortSavedDesc_perm _⟩
    intro habs
    have h1 : st.useMongodb = true := by
      cases hu : st.useMongodb
      · rw [hu] at habs
        simp at habs
      · rfl
    have h2 : st.dbPresent = true := by
      cases hu : st.dbPresent
      · rw [hu] at habs
        simp at habs
      · rfl
    rw [h1, h2] at hA'
    simp at hA'

/-- Witness for `get_reports_sorted_C8`: memory mode with two reports saved
out of recency order; the listing is re-sorted most-recent-first. -/
theorem get_reports_sorted_C8_witness :
    get_reports false
        ⟨false, false, [],
         [sampleSaved "s1" [] 1, sampleSaved "s2" [] 5]⟩ =
      .ok [sampleSaved "s2" [] 5, sampleSaved "s1" [] 1] ∧
    (([sampleSaved "s2" [] 5, sampleSaved "s1" [] 1] :
        List SavedReport).Sorted savedDesc ∧
     ((false && false && !false) = true →
       ([sampleSaved "s2" [] 5, sampleSaved "s1" [] 1] :
           List SavedReport).length ≤ 100 ∧
       [sampleSaved "s2" [] 5, sampleSaved "s1" [] 1] =
         (sortSavedDesc []).take 100) ∧
     ((false && false && !false) = false →
       ([sampleSaved "s2" [] 5, sampleSaved "s1" [] 1] :
           List SavedReport).Perm
         [sampleSaved "s1" [] 1, sampleSaved "s2" [] 5])) :=
  ⟨rfl,
   get_reports_sorted_C8 false
     ⟨false, false, [], [sampleSaved "s1" [] 1, sampleSaved "s2" [] 5]⟩
     [sampleSaved "s2" [] 5, sampleSaved "s1" [] 1] rfl⟩

/-! ## C9: delete is success-then-404 -/

lemma removeFirst_of_countP_pos (p : SavedReport → Bool)
    (l : List SavedReport) (h : 0 < l.countP p) :
    ∃ l', removeFirst p l = some l' ∧ l'.countP p = l.countP p - 1 := by
  induction l with
  | nil => simp [List.countP_nil] at h
  | cons x xs ih =>
    by_cases hx : p x = true
    · refine ⟨xs, by simp [removeFirst, hx], ?_⟩
      rw [List.countP_cons_of_pos _ _ hx, Nat.add_sub_cancel]
    · have h' : 0 < xs.countP p := by
        rwa [List.countP_cons_of_neg _ _ hx] at h
      obtain ⟨l', hrem, hcount⟩ := ih h'
      refine ⟨x :: l', by simp [removeFirst, hx, hrem], ?_⟩
      rw [List.countP_cons_of_neg _ _ hx, List.countP_cons_of_neg _ _ hx,
        hcount]

lemma removeFirst_of_countP_zero (p : SavedReport → Bool)
    (l : List SavedReport) (h : l.countP p = 0) :
    removeFirst p l = none := by
  induction l with
  | nil => rfl
  | cons x xs ih =>
    have hx : p x = false := by
      cases hpx : p x
      · rfl
      · rw [List.countP_cons_of_pos _ _ hpx] at h
        simp at h
    have h' : xs.countP p = 0 := by
      rwa [List.countP_cons_of_neg _ _ (by simp [hx])] at h
    simp [removeFirst, hx, ih h']

/-- C9: for an identifier held by exactly one record of the active
collection (MongoDB collection in MongoDB mode, in-memory list otherwise —
identifiers are generated per save, so unique), the first delete succeeds
with "Report deleted successfully" and removes the entity (no record with
that identifier remains), and the second delete of the same identifier
returns 404 "Report not found" leaving the state unchanged. -/
theorem delete_report_twice_C9 (report_id : String) (st : ServerState)
    (res : Except HTTPError String) (st2 : ServerState)
    (hcount : ((if st.useMongodb then st.mongoReports
        else st.memoryReports).countP (fun r => r.id == report_id)) = 1)
    (hfirst : delete_report report_id st = (res, st2)) :
    res = .ok "Report deleted successfully" ∧
    ((if st2.useMongodb then st2.mongoReports
        else st2.memoryReports).countP (fun r => r.id == report_id)) = 0 ∧
    delete_report report_id st2 = (.error ⟨404, "Report not found"⟩, st2) := by
  obtain ⟨um, dbp, mng, mem⟩ := st
  dsimp only at hcount
  by_cases hm : um = true
  · subst hm
    rw [if_pos rfl] at hcount
    obtain ⟨l', hrem, hc⟩ := removeFirst_of_countP_pos
      (fun r => r.id == report_id) mng (by rw [hcount]; decide)
    rw [hcount] at hc
    unfold delete_report at hfirst
    dsimp only at hfirst
    rw [if_pos rfl, hrem] at hfirst
    injection hfirst with h1 h2
    subst h2
    refine ⟨h1.symm, ?_, ?_⟩
    · dsimp only
      rw [if_pos rfl]
      exact hc
    · unfold delete_report
      dsimp only
      rw [if_pos rfl, removeFirst_of_countP_zero _ _ hc]
  · have hm' : um = false := by
      revert hm
      cases um <;> simp
    subst hm'
    rw [if_neg (by simp)] at hcount
    obtain ⟨l', hrem, hc⟩ := removeFirst_of_countP_pos
      (fun r => r.id == report_id) mem (by rw [hcount]; decide)
    rw [hcount] at hc
    unfold delete_report at hfirst
    dsimp only at hfirst
    rw [if_neg (by simp), hrem] at hfirst
    injection hfirst with h1 h2
    subst h2
    refine ⟨h1.symm, ?_, ?_⟩
    · dsimp only
      rw [if_neg (by simp)]
      exact hc
    · unfold delete_report
      dsimp only
      rw [if_neg (by simp), removeFirst_of_countP_zero _ _ hc]

/-- Witness for `delete_report_twice_C9`: memory mode holding exactly one
report with id "d1"; the first delete empties the collection, the second
404s. -/
theorem delete_report_twice_C9_witness :
    (((if (⟨false, false, [], [sampleSaved "d1" [] 3]⟩ :
          ServerState).useMongodb
        then (⟨false, false, [], [sampleSaved "d1" [] 3]⟩ :
          ServerState).mongoReports
        else (⟨false, false, [], [sampleSaved "d1" [] 3]⟩ :
          ServerState).memoryReports).countP
        (fun r => r.id == "d1")) = 1 ∧
     delete_report "d1" ⟨false, false, [], [sampleSaved "d1" [] 3]⟩ =
       (.ok "Report deleted successfully", ⟨false, false, [], []⟩)) ∧
    ((.ok "Report deleted successfully" :
        Except HTTPError String) = .ok "Report deleted successfully" ∧
     ((if (⟨false, false, [], []⟩ : ServerState).useMongodb
        then (⟨false, false, [], []⟩ : ServerState).mongoReports
        else (⟨false, false, [], []⟩ : ServerState).memoryReports).countP
        (fun r => r.id == "d1")) = 0 ∧
     delete_report "d1" ⟨false, false, [], []⟩ =
       (.error ⟨404, "Report not found"⟩, ⟨false, false, [], []⟩)) :=
  ⟨⟨by decide, rfl⟩,
   delete_report_twice_C9 "d1" ⟨false, false, [], [sampleSaved "d1" [] 3]⟩
     (.ok "Report deleted successfully") ⟨false, false, [], []⟩
     (by decide) rfl⟩

/-! ## C10: the stored image copy -/

lemma analyze_report_ok_build {parse : List Char → Option Jobj}
    {apiKeyPresent : Bool} {llmErr : Option String}
    {llmResponse img : List Char} {newId : String} {now : Nat}
    {st st2 : ServerState} {n : Nat} {r : AnalyzedReport}
    (h : analyze_report parse apiKeyPresent llmErr llmResponse img newId now
        st = (.ok r, st2, n)) :
    ∃ analysis, buildAnalyzedReport analysis img newId now = some r := by
  unfold analyze_report at h
  split at h
  · injection h with h1 h2
    cases h1
  · split at h
    · injection h with h1 h2
      cases h1
    · rename_i analysis n' heq
      split at h
      · rename_i report hb
        injection h with h1 h2
        injection h1 with h1
        subst h1
        exact ⟨analysis, hb⟩
      · injection h with h1 h2
        cases h1

/-- The report produced by the analyze endpoint on the three-character image
`"abc"` with an LLM response parsing to the empty object. -/
def c10Report : AnalyzedReport :=
  ⟨"id0", "blood_test", "Medical Report", "Report analyzed successfully",
   none, [], [], none, "moderate", 7, some ("abc...".toList)⟩

/-- C10 counterexample: on the (non-empty) source image encoding `"abc"`,
the returned report's `image_base64` is `"abc..."` — the code stores
`image_base64[:100] + "..."`.  This stored value is *not* a prefix of the
source encoding (the appended `"..."` marker is not part of it), and it
contains the *entire* source image encoding as a prefix, contradicting
"stored as a prefix only — not the full image". -/
theorem analyze_report_image_counterexample_C10 :
    analyze_report (fun _ => some []) true none ("x".toList) ("abc".toList)
        "id0" 7 ⟨false, false, [], []⟩ =
      (.ok c10Report, ⟨false, false, [], []⟩, 1) ∧
    c10Report.image_base64 = some ("abc...".toList) ∧
    ¬ (("abc...".toList : List Char) <+: ("abc".toList : List Char)) ∧
    (("abc".toList : List Char) <+: ("abc...".toList : List Char)) := by
  refine ⟨rfl, rfl, by decide, by decide⟩

/-- C10 (amended): for every successful analysis, the returned report's
`image_base64` holds the first 100 characters of the source image encoding
with the literal marker `"..."` appended — so the retained image portion is
a prefix of the source, the whole stored value is bounded by 103 characters
regardless of the input image's length (and is exactly 103 characters once
the input reaches 100 characters), but for sources of at most 100
characters the stored value contains the full encoding rather than a proper
truncation. -/
theorem analyze_report_image_trunc_amended_C10
    (parse : List Char → Option Jobj) (apiKeyPresent : Bool)
    (llmErr : Option String) (llmResponse img : List Char) (newId : String)
    (now : Nat) (st st2 : ServerState) (n : Nat) (r : AnalyzedReport)
    (h : analyze_report parse apiKeyPresent llmErr llmResponse img newId now
        st = (.ok r, st2, n)) :
    r.image_base64 = some (truncImage img) ∧
    truncImage img = img.take 100 ++ "...".toList ∧
    (truncImage img).length ≤ 103 ∧
    img.take 100 <+: img ∧
    (100 ≤ img.length → (truncImage img).length = 103) := by
  obtain ⟨analysis, hb⟩ := analyze_report_ok_build h
  refine ⟨(buildAnalyzedReport_fields hb).2.2.2.2.2.2.2.2.2.2, rfl, ?_,
    List.take_prefix _ _, ?_⟩
  · unfold truncImage
    rw [List.length_append]
    have h1 : (img.take 100).length ≤ 100 := List.length_take_le _ _
    have h2 : ("...".toList).length = 3 := by decide
    omega
  · intro hlen
    unfold truncImage
    rw [List.length_append, List.length_take, Nat.min_eq_left hlen]
    decide

/-- Witness for `analyze_report_image_trunc_amended_C10` on the `"abc"`
image. -/
theorem analyze_report_image_trunc_amended_C10_witness :
    (analyze_report (fun _ => some []) true none ("x".toList)
        ("abc".toList) "id0" 7 ⟨false, false, [], []⟩ =
      (.ok c10Report, ⟨false, false, [], []⟩, 1)) ∧
    (c10Report.image_base64 = some (truncImage ("abc".toList)) ∧
     truncImage ("abc".toList) = ("abc".toList).take 100 ++ "...".toList ∧
     (truncImage ("abc".toList)).length ≤ 103 ∧
     ("abc".toList).take 100 <+: "abc".toList ∧
     (100 ≤ ("abc".toList).length →
       (truncImage ("abc".toList)).length = 103)) :=
  ⟨rfl,
   analyze_report_image_trunc_amended_C10 (fun _ => some []) true none
     ("x".toList) ("abc".toList) "id0" 7 ⟨false, false, [], []⟩
     ⟨false, false, [], []⟩ 1 c10Report rfl⟩

end MedicalApp
